import Mathlib

/-!
Verification of the typography mesh hero animation core
(`src/components/TypographyMeshHero.jsx`, first component variant with six
interaction modes).  JavaScript numbers are modelled as rationals; the
transcendental functions used by the simulation (`Math.sin`, `Math.cos`,
`Math.exp`, `Math.hypot`, `Math.pow`) are abstracted into a record of
function parameters, so every algebraic/structural statement below holds
for any interpretation of those functions.
-/

attribute [local semireducible] Rat.add Rat.mul Rat.inv Rat.sub Rat.ofScientific

namespace TypoMesh

/-- The `MathFns` record stands for the JavaScript `Math` intrinsics used by
the animation: each field is an arbitrary function, as the verified
properties do not depend on their analytic values. -/
structure MathFns where
  sin : ℚ → ℚ
  cos : ℚ → ℚ
  exp : ℚ → ℚ
  hypot : ℚ → ℚ → ℚ
  pow : ℚ → ℚ → ℚ

/-- `Math.max` on two finite numbers. -/
def jsMax (a b : ℚ) : ℚ := if a < b then b else a

/-- `Math.min` on two finite numbers. -/
def jsMin (a b : ℚ) : ℚ := if a < b then a else b

theorem jsMax_eq (a b : ℚ) : jsMax a b = max a b := by
  unfold jsMax
  rcases lt_or_ge a b with h | h
  · rw [if_pos h, max_eq_right h.le]
  · rw [if_neg (not_lt.mpr h), max_eq_left h]

theorem jsMin_eq (a b : ℚ) : jsMin a b = min a b := by
  unfold jsMin
  rcases lt_or_ge a b with h | h
  · rw [if_pos h, min_eq_left h.le]
  · rw [if_neg (not_lt.mpr h), min_eq_right h]

/-- `clamp01` from the source: `Math.max(0, Math.min(1, value))`. -/
def clamp01 (value : ℚ) : ℚ := jsMax 0 (jsMin 1 value)

/-- `smoothstep` from the source. -/
def smoothstep (edge0 edge1 x : ℚ) : ℚ :=
  let t := clamp01 ((x - edge0) / (edge1 - edge0))
  t * t * (3 - 2 * t)

/-- `expSmoothing(rate, deltaSeconds) = 1 - Math.exp(-rate * deltaSeconds)`. -/
def expSmoothing (ops : MathFns) (rate deltaSeconds : ℚ) : ℚ :=
  1 - ops.exp (-(rate * deltaSeconds))

/-- `hash01(seed)` from the source: fractional part of
`Math.sin(seed * 12.9898) * 43758.5453`. -/
def hash01 (ops : MathFns) (seed : ℚ) : ℚ :=
  let value := ops.sin (seed * 12.9898) * 43758.5453
  value - ⌊value⌋

/-- `Math.sign`. -/
def jsSign (x : ℚ) : ℚ := if 0 < x then 1 else if x < 0 then -1 else 0

/-- `Math.round`: round half toward positive infinity (JavaScript semantics). -/
def jsRound (x : ℚ) : ℤ := ⌊x + 1/2⌋

/-- Characters treated as whitespace by the `\s` regex class and `trim`
(the ASCII ones; after the character filter only `' '` can occur anyway). -/
def isJsSpace (c : Char) : Bool :=
  c == ' ' || c == '\t' || c == '\n' || c == '\r' || c == '\x0b' || c == '\x0c'

/-- Characters kept by `replace(/[^A-Z0-9 ]/g, "")`. -/
def isWordChar (c : Char) : Bool :=
  (decide ('A' ≤ c) && decide (c ≤ 'Z')) ||
    (decide ('0' ≤ c) && decide (c ≤ '9')) || c == ' '

/-- Worker for `replace(/\s+/g, " ")`: the flag records whether the previous
character was part of a whitespace run that has already emitted its `' '`. -/
def collapseWsAux : Bool → List Char → List Char
  | _, [] => []
  | prevSpace, c :: rest =>
    if isJsSpace c then
      if prevSpace then collapseWsAux true rest
      else ' ' :: collapseWsAux true rest
    else c :: collapseWsAux false rest

/-- `replace(/\s+/g, " ")`: collapse every whitespace run to one space. -/
def collapseWs (l : List Char) : List Char := collapseWsAux false l

/-- `String.prototype.trim` on a character list. -/
def jsTrim (l : List Char) : List Char :=
  ((l.dropWhile (fun c => isJsSpace c)).reverse.dropWhile
      (fun c => isJsSpace c)).reverse

/-- `normalizeWord` from the source: default the empty (falsy) string to
`"GEIST"`, uppercase, strip characters outside `[A-Z0-9 ]`, collapse
whitespace runs, trim, and fall back to `"GEIST"` if nothing is left. -/
def normalizeWord (value : String) : String :=
  let base := if value = "" then "GEIST" else value
  let upper := base.data.map Char.toUpper
  let filtered := upper.filter (fun c => isWordChar c)
  let next := String.mk (jsTrim (collapseWs filtered))
  if 0 < next.length then next else "GEIST"

example : normalizeWord "  héllo   world!  " = "HLLO WORLD" := by decide
example : normalizeWord "" = "GEIST" := by decide
example : normalizeWord "!!!" = "GEIST" := by decide
example : normalizeWord "a\t b" = "A B" := by decide
example : 18 < (normalizeWord "AAAAAAAAAAAAAAAAAAA").length := by decide

/-- `INTERACTION_MODE_IDS`, the ids of `INTERACTION_MODES` (six-mode variant). -/
def INTERACTION_MODE_IDS : List String :=
  ["fluid", "nebula", "tide", "vortex", "ripple", "magnet"]

/-- A JavaScript value that can appear as an entry of a persisted
mode-strength map (JSON scalars and the `undefined` read off a missing
property; `num` carries a finite double, `nan`/`posInf`/`negInf` the
non-finite ones). -/
inductive JSValue where
  | undefinedJs
  | null
  | nan
  | posInf
  | negInf
  | num (q : ℚ)
  | bool (b : Bool)
deriving DecidableEq

/-- `Number(v)` followed by the `Number.isFinite` test of the source:
`some q` when the coercion produces the finite number `q`, `none` when it
produces `NaN` or an infinity. -/
def jsNumberFinite : JSValue → Option ℚ
  | .undefinedJs => none
  | .null => some 0
  | .nan => none
  | .posInf => none
  | .negInf => none
  | .num q => some q
  | .bool b => some (if b then 1 else 0)

/-- The `source` object of `normalizeModeStrengths`: a missing, `null` or
non-object argument collapses to the empty object (every property read
yields `undefined`). -/
def modeStrengthsSource (modeStrengths : Option (String → JSValue)) :
    String → JSValue :=
  match modeStrengths with
  | some f => f
  | none => fun _ => .undefinedJs

/-- `normalizeModeStrengths` from the source: one entry per interaction-mode
id; a finite `Number(...)` coercion is clamped to `[0.4, 1.8]`, anything
else defaults to `1`. -/
def normalizeModeStrengths (modeStrengths : Option (String → JSValue)) :
    List (String × ℚ) :=
  let source := modeStrengthsSource modeStrengths
  INTERACTION_MODE_IDS.map (fun modeId =>
    (modeId,
      match jsNumberFinite (source modeId) with
      | some raw => jsMax 0.4 (jsMin 1.8 raw)
      | none => 1))

example :
    normalizeModeStrengths none =
      [("fluid", 1), ("nebula", 1), ("tide", 1), ("vortex", 1),
        ("ripple", 1), ("magnet", 1)] := by decide
example :
    (normalizeModeStrengths (some (fun _ => .num 5))).lookup "tide" =
      some (9/5) := by decide
example :
    (normalizeModeStrengths (some (fun _ => .null))).lookup "fluid" =
      some (2/5) := by decide

/-- One sampled target point (`{x, y, glyph}` pushed by
`buildForegroundTargets`). -/
structure TargetPoint where
  x : ℚ
  y : ℚ
  glyph : ℚ
deriving DecidableEq

instance : Inhabited TargetPoint := ⟨⟨0, 0, 0⟩⟩

/-- The `foregroundData` record: `count` plus the per-particle typed arrays,
modelled as total functions on the particle index. -/
structure ForegroundData where
  count : ℕ
  homeX : ℕ → ℚ
  homeY : ℕ → ℚ
  posX : ℕ → ℚ
  posY : ℕ → ℚ
  velX : ℕ → ℚ
  velY : ℕ → ℚ
  seed : ℕ → ℚ
  targetX : ℕ → ℚ
  targetY : ℕ → ℚ
  baseGlyph : ℕ → ℚ
  targetGlyph : ℕ → ℚ
  targetSlot : ℕ → ℕ

/-- The `{flow, drag, camera, settle}` motion settings. -/
structure Motion where
  flow : ℚ
  drag : ℚ
  camera : ℚ
  settle : ℚ

/-- The mutable closure state of the animation effect that the verified
claims touch: word/targets bookkeeping, the particle arrays, the displayed
glyph attribute array, the retarget scalars, the adaptive-quality
controller state and the smoothed pointer state. -/
structure FrameState where
  currentWord : String
  foregroundTargets : List TargetPoint
  targetCount : ℕ
  fg : ForegroundData
  glyphs : ℕ → ℚ
  retargetMorph : ℚ
  retargetExcite : ℚ
  t : ℚ
  fpsEma : ℚ
  qualityScale : ℚ
  qualityEvalAt : ℚ
  pointerTargetX : ℚ
  pointerTargetY : ℚ
  pointerX : ℚ
  pointerY : ℚ
  pointerStrengthTarget : ℚ
  pointerStrength : ℚ
  pointerVelocityTargetX : ℚ
  pointerVelocityTargetY : ℚ
  pointerVelocityX : ℚ
  pointerVelocityY : ℚ
  pointerEnergy : ℚ
  ambientDriftX : ℚ
  ambientDriftY : ℚ

/-- The slot chosen by one iteration of the `assignForegroundTargets` loop
when the new target list is non-empty.  `oldTargetCount` is the closure
variable `targetCount` (the previous list length), `nextCount` the new
length, `oldSlot` the particle's stored `targetSlot`. -/
def newSlot (ops : MathFns) (preserveSlots : Bool)
    (nextCount oldTargetCount oldSlot i : ℕ) : ℕ :=
  if preserveSlots ∧ 0 < oldTargetCount then
    let relPos : ℚ :=
      if oldTargetCount ≤ 1 then 0
      else (oldSlot : ℚ) / ((oldTargetCount : ℚ) - 1)
    let jitter := (hash01 ops ((i : ℚ) * 31.7 + (oldTargetCount : ℚ) * 0.17) - 0.5) * 1.8
    let slot : ℤ := jsRound (relPos * ((nextCount : ℚ) - 1) + jitter)
    (max 0 (min ((nextCount : ℤ) - 1) slot)).toNat
  else
    (i * 17) % nextCount

/-- `assignForegroundTargets(preserveSlots)`: retarget every particle from
`foregroundTargets`, falling back to home/base glyph when the list is
empty, then store the new list length in `targetCount`. -/
def assignForegroundTargets (ops : MathFns) (preserveSlots : Bool)
    (s : FrameState) : FrameState :=
  let nextCount := s.foregroundTargets.length
  let fg := s.fg
  if nextCount = 0 then
    { s with
      fg := { fg with
        targetX := fun i => if i < fg.count then fg.homeX i else fg.targetX i
        targetY := fun i => if i < fg.count then fg.homeY i else fg.targetY i
        targetGlyph := fun i =>
          if i < fg.count then fg.baseGlyph i else fg.targetGlyph i
        targetSlot := fun i => if i < fg.count then 0 else fg.targetSlot i }
      targetCount := nextCount }
  else
    let slotOf : ℕ → ℕ := fun i =>
      newSlot ops preserveSlots nextCount s.targetCount (fg.targetSlot i) i
    { s with
      fg := { fg with
        targetX := fun i =>
          if i < fg.count then (s.foregroundTargets.getD (slotOf i) default).x
          else fg.targetX i
        targetY := fun i =>
          if i < fg.count then (s.foregroundTargets.getD (slotOf i) default).y
          else fg.targetY i
        targetGlyph := fun i =>
          if i < fg.count then (s.foregroundTargets.getD (slotOf i) default).glyph
          else fg.targetGlyph i
        targetSlot := fun i =>
          if i < fg.count then slotOf i else fg.targetSlot i }
      targetCount := nextCount }

/-- `retargetWord(nextWord)`: normalize, bail out on a falsy/unchanged word
or an empty particle field, otherwise rebuild the target list through the
sampler (the rasterizing `buildForegroundTargets`, abstracted as a function
of the word since the viewport is unchanged), reassign targets preserving
slots, and reset the retarget scalars. -/
def retargetWord (ops : MathFns) (sampler : String → List TargetPoint)
    (s : FrameState) (nextWord : String) : FrameState :=
  let normalized := normalizeWord nextWord
  if normalized = "" ∨ normalized = s.currentWord ∨ s.fg.count = 0 then s
  else
    let s1 := { s with
      currentWord := normalized
      foregroundTargets := sampler normalized }
    let s2 := assignForegroundTargets ops true s1
    { s2 with retargetMorph := 0, retargetExcite := 1 }

/-- The initial `qualityScale`:
`Math.max(0.72, 1 - Math.max(0, dpr - 1) * 0.12)`. -/
def initQualityScale (dpr : ℚ) : ℚ :=
  jsMax 0.72 (1 - jsMax 0 (dpr - 1) * 0.12)

/-- `Math.abs`. -/
def jsAbs (x : ℚ) : ℚ := if x < 0 then -x else x

theorem jsAbs_eq (x : ℚ) : jsAbs x = |x| := by
  unfold jsAbs
  rcases lt_or_ge x 0 with h | h
  · rw [if_pos h, abs_of_neg h]
  · rw [if_neg (not_lt.mpr h), abs_of_nonneg h]

/-- The `timeline` thresholds of the effect (first component variant). -/
def timelineMeshEnd : ℚ := 2.6

def timelineConvergeEnd : ℚ := 7.2

def timelineHoldEnd : ℚ := 9.1

def timelineSolidEnd : ℚ := 12

/-- Per-tick external inputs of one `animate` call: the clock delta, the
device pixel ratio, the clamped viewport, the lattice step, the motion
settings and the persisted per-mode strength map. -/
structure Env where
  rawDelta : ℚ
  dpr : ℚ
  viewportWidth : ℚ
  viewportHeight : ℚ
  foregroundStep : ℚ
  motion : Motion
  modeStrengthMap : String → Option ℚ

/-- The per-mode geometry constants chosen by the chained conditional on
`modeIndex` (lines 1898-1975 of the source; index 0/fallback is fluid). -/
structure ModeConfig where
  pointerWarpRadiusFactor : ℚ
  pointerWarpBase : ℚ
  pointerWarpFloat : ℚ
  pointerFlowBase : ℚ
  pointerFlowFloat : ℚ
  backgroundPointerRadiusFactor : ℚ
  backgroundPointerWarpFactor : ℚ
  backgroundPointerStrengthBase : ℚ
  backgroundPointerStrengthFloat : ℚ
  backgroundSpeedBoost : ℚ

/-- `modeConfig` per interaction mode index. -/
def modeConfigOf (modeIndex : ℕ) : ModeConfig :=
  if modeIndex = 1 then
    { pointerWarpRadiusFactor := 0.46, pointerWarpBase := 0.58
      pointerWarpFloat := 0.3, pointerFlowBase := 0.74, pointerFlowFloat := 0.32
      backgroundPointerRadiusFactor := 0.56, backgroundPointerWarpFactor := 0.34
      backgroundPointerStrengthBase := 0.23, backgroundPointerStrengthFloat := 0.26
      backgroundSpeedBoost := 0.4 }
  else if modeIndex = 2 then
    { pointerWarpRadiusFactor := 0.4, pointerWarpBase := 0.92
      pointerWarpFloat := 0.38, pointerFlowBase := 0.36, pointerFlowFloat := 0.2
      backgroundPointerRadiusFactor := 0.5, backgroundPointerWarpFactor := 0.39
      backgroundPointerStrengthBase := 0.24, backgroundPointerStrengthFloat := 0.24
      backgroundSpeedBoost := 0.3 }
  else if modeIndex = 3 then
    { pointerWarpRadiusFactor := 0.54, pointerWarpBase := 1.06
      pointerWarpFloat := 0.42, pointerFlowBase := 0.84, pointerFlowFloat := 0.34
      backgroundPointerRadiusFactor := 0.62, backgroundPointerWarpFactor := 0.44
      backgroundPointerStrengthBase := 0.25, backgroundPointerStrengthFloat := 0.3
      backgroundSpeedBoost := 0.44 }
  else if modeIndex = 4 then
    { pointerWarpRadiusFactor := 0.6, pointerWarpBase := 0.7
      pointerWarpFloat := 0.26, pointerFlowBase := 0.78, pointerFlowFloat := 0.28
      backgroundPointerRadiusFactor := 0.66, backgroundPointerWarpFactor := 0.31
      backgroundPointerStrengthBase := 0.21, backgroundPointerStrengthFloat := 0.22
      backgroundSpeedBoost := 0.36 }
  else if modeIndex = 5 then
    { pointerWarpRadiusFactor := 0.38, pointerWarpBase := 1.08
      pointerWarpFloat := 0.36, pointerFlowBase := 0.26, pointerFlowFloat := 0.16
      backgroundPointerRadiusFactor := 0.43, backgroundPointerWarpFactor := 0.46
      backgroundPointerStrengthBase := 0.24, backgroundPointerStrengthFloat := 0.26
      backgroundSpeedBoost := 0.35 }
  else
    { pointerWarpRadiusFactor := 0.34, pointerWarpBase := 0.66
      pointerWarpFloat := 0.32, pointerFlowBase := 0.6, pointerFlowFloat := 0.26
      backgroundPointerRadiusFactor := 0.42, backgroundPointerWarpFactor := 0.36
      backgroundPointerStrengthBase := 0.18, backgroundPointerStrengthFloat := 0.22
      backgroundSpeedBoost := 0.28 }

/-- The per-tick scalars computed before the particle loop that the loop
body reads (render-only scalars such as `breath` or `settleBack` are not
consumed by the simulation and are omitted). -/
structure TickScalars where
  t : ℚ
  delta : ℚ
  converge : ℚ
  lockPhase : ℚ
  flow : ℚ
  floatingMix : ℚ
  retargetBlend : ℚ
  retargetExcite : ℚ
  ambientDriftX : ℚ
  ambientDriftY : ℚ
  pointerWorldX : ℚ
  pointerWorldY : ℚ
  pointerWorldVelX : ℚ
  pointerWorldVelY : ℚ
  pointerStrength : ℚ

/-- The `(flowA, flowB, pressureScale, dragScale, flowScale)` quintuple
produced by the interaction-mode branch of the particle loop. -/
structure ModeFlow where
  flowA : ℚ
  flowB : ℚ
  pressureScale : ℚ
  dragScale : ℚ
  flowScale : ℚ

/-- The six interaction-mode vector-field branches (lines 2130-2217):
nebula (1), tide (2), vortex (3), ripple (4), magnet (5) and the fluid
default. -/
def modeFlowOf (ops : MathFns) (motion : Motion) (modeIndex : ℕ)
    (t seed dx dy dist tX tY : ℚ) : ModeFlow :=
  let organicPulse := ops.sin (t * 0.6 + seed * 8.7) * 0.5 + 0.5
  if modeIndex = 1 then
    let orbitA := -dy / dist
    let orbitB := dx / dist
    let cloudA := ops.sin ((tY - tX) * 0.012 + t * 0.61 + seed * 7.1) +
      ops.cos ((tX + tY) * 0.008 - t * 0.52 + seed * 4.9) * 0.65
    let cloudB := ops.cos ((tY + tX) * 0.011 - t * 0.57 + seed * 6.2) +
      ops.sin ((tX - tY) * 0.009 + t * 0.49 + seed * 5.3) * 0.65
    { flowA := orbitA * (0.6 + 0.35 * organicPulse) + cloudA * 0.7
      flowB := orbitB * (0.6 + 0.35 * organicPulse) + cloudB * 0.7
      pressureScale := 0.1
      dragScale := (0.14 + 0.09 * organicPulse) * motion.drag
      flowScale := (0.58 + 0.34 * organicPulse) * motion.flow }
  else if modeIndex = 2 then
    let tideA := ops.sin (tY * 0.011 + t * 0.92 + seed * 3.8) +
      ops.cos ((tX + tY) * 0.006 + t * 0.34)
    let tideB := ops.sin (tX * 0.01 - t * 0.77 + seed * 3.1) +
      ops.cos ((tX - tY) * 0.005 - t * 0.28)
    { flowA := tideA
      flowB := tideB
      pressureScale := 0.2
      dragScale := (0.08 + 0.05 * organicPulse) * motion.drag
      flowScale := (0.32 + 0.2 * organicPulse) * motion.flow }
  else if modeIndex = 3 then
    let orbitA := -dy / dist
    let orbitB := dx / dist
    let spiral := ops.sin (dist * 0.03 - t * 1.2 + seed * 7.4)
    let curlA := ops.cos ((tX + tY) * 0.012 + t * 0.72 + seed * 4.1) * 0.62
    let curlB := ops.sin ((tY - tX) * 0.013 - t * 0.67 + seed * 3.6) * 0.62
    { flowA := orbitA * (0.9 + 0.3 * organicPulse) + dx / dist * spiral * 0.35 + curlA
      flowB := orbitB * (0.9 + 0.3 * organicPulse) + dy / dist * spiral * 0.35 + curlB
      pressureScale := 0.26
      dragScale := (0.09 + 0.05 * organicPulse) * motion.drag
      flowScale := (0.74 + 0.34 * organicPulse) * motion.flow }
  else if modeIndex = 4 then
    let wave := ops.sin (dist * 0.044 - t * 1.52 + seed * 5.2)
    let radialA := dx / dist * wave
    let radialB := dy / dist * wave
    let crossA := -dy / dist * (0.34 + 0.2 * organicPulse)
    let crossB := dx / dist * (0.34 + 0.2 * organicPulse)
    { flowA := radialA + crossA
      flowB := radialB + crossB
      pressureScale := 0.12
      dragScale := (0.11 + 0.05 * organicPulse) * motion.drag
      flowScale := (0.62 + 0.24 * organicPulse) * motion.flow }
  else if modeIndex = 5 then
    let pullA := -dx / dist
    let pullB := -dy / dist
    let latticeA := ops.sin (tY * 0.021 + t * 0.86 + seed * 6.6) * 0.52
    let latticeB := ops.cos (tX * 0.022 - t * 0.82 + seed * 5.7) * 0.52
    { flowA := pullA * (0.92 + 0.26 * organicPulse) + latticeA
      flowB := pullB * (0.92 + 0.26 * organicPulse) + latticeB
      pressureScale := -0.16
      dragScale := (0.14 + 0.05 * organicPulse) * motion.drag
      flowScale := (0.28 + 0.14 * organicPulse) * motion.flow }
  else
    { flowA := ops.sin (tY * 0.016 + t * 0.58 + seed * 6.7) +
        ops.cos ((tX + tY) * 0.01 - t * 0.43 + seed * 2.9) * 0.5
      flowB := ops.cos (tX * 0.015 - t * 0.52 + seed * 5.3) +
        ops.sin ((tX - tY) * 0.009 + t * 0.39 + seed * 3.7) * 0.5
      pressureScale := 0.16
      dragScale := (0.1 + 0.08 * organicPulse) * motion.drag
      flowScale := (0.44 + 0.28 * organicPulse) * motion.flow }

/-- `pointerWarpRadius`: viewport minimum edge times the mode's radius
factor. -/
def pointerWarpRadiusOf (env : Env) (modeIndex : ℕ) : ℚ :=
  jsMin env.viewportWidth env.viewportHeight *
    (modeConfigOf modeIndex).pointerWarpRadiusFactor

/-- The pointer-interaction branch of the particle loop (lines 2121-2229):
given the ambient-adjusted target `(tX, tY)`, add the mode's flow, drag and
pressure contributions.  The per-mode warp/flow strengths (lines 1977-1989)
are computed here because the branch is their only foreground consumer. -/
def pointerAdjust (ops : MathFns) (env : Env) (modeIndex : ℕ)
    (sc : TickScalars) (seed tX tY : ℚ) : ℚ × ℚ :=
  let cfg := modeConfigOf modeIndex
  let modeId := INTERACTION_MODE_IDS.getD modeIndex "fluid"
  let modeStrength := (env.modeStrengthMap modeId).getD 1
  let pointerWarpStrength := env.foregroundStep *
    (cfg.pointerWarpBase + cfg.pointerWarpFloat * sc.floatingMix) *
    env.motion.flow * modeStrength
  let pointerFlowStrength := env.foregroundStep *
    (cfg.pointerFlowBase + cfg.pointerFlowFloat * sc.floatingMix) *
    env.motion.flow * (0.84 + 0.24 * env.motion.drag) * modeStrength
  let dx := tX - sc.pointerWorldX
  let dy := tY - sc.pointerWorldY
  let dist := ops.hypot dx dy + 0.0001
  let radial := clamp01 (1 - dist / pointerWarpRadiusOf env modeIndex)
  let falloff := radial * radial * (3 - 2 * radial)
  let influence := falloff * sc.pointerStrength
  let nxDir := dx / dist
  let nyDir := dy / dist
  let mf := modeFlowOf ops env.motion modeIndex sc.t seed dx dy dist tX tY
  let flowLen := ops.hypot mf.flowA mf.flowB + 0.0001
  let flowX := mf.flowA / flowLen
  let flowY := mf.flowB / flowLen
  let pressure := (0.52 - radial) * pointerWarpStrength * influence * mf.pressureScale
  let drag := mf.dragScale * influence
  (tX + flowX * pointerFlowStrength * influence * mf.flowScale +
      sc.pointerWorldVelX * drag + nxDir * pressure,
    tY + flowY * pointerFlowStrength * influence * mf.flowScale +
      sc.pointerWorldVelY * drag + nyDir * pressure)

/-- The pointer-independent part of a particle's adjusted target (lines
2070-2119): staggered convergence toward the assigned target plus ambient
float and drift. -/
def particleBaseTarget (ops : MathFns) (env : Env) (sc : TickScalars)
    (fg : ForegroundData) (i : ℕ) : ℚ × ℚ :=
  let seed := fg.seed i
  let delay := (ops.sin (seed * 4.13) * 0.5 + 0.5) * 0.34
  let delayedConverge := smoothstep delay 1 (sc.converge + sc.lockPhase * 0.08)
  let combinedConverge := clamp01 (delayedConverge * (0.58 + 0.42 * sc.retargetBlend))
  let preJitter := (1 - combinedConverge) *
    (0.24 + 0.16 * sc.flow + sc.retargetExcite * 0.34)
  let nx := ops.sin (sc.t * 0.92 + seed) * env.foregroundStep * 0.14 * preJitter
  let ny := ops.cos (sc.t * 0.86 + seed * 1.11) * env.foregroundStep * 0.14 * preJitter
  let baseX := fg.homeX i + nx
  let baseY := fg.homeY i + ny
  let targetX0 := baseX + (fg.targetX i - baseX) * combinedConverge
  let targetY0 := baseY + (fg.targetY i - baseY) * combinedConverge
  let lockFloat := (0.32 + 0.68 * sc.lockPhase) * sc.floatingMix *
    (0.84 + sc.retargetExcite * 0.45)
  let floatAmp := env.foregroundStep *
    (0.03 + 0.045 * (ops.sin (seed * 2.1) * 0.5 + 0.5)) * env.motion.flow
  let ambientA := ops.sin ((baseY + seed * 120) * 0.012 + sc.t * 0.52) +
    ops.cos ((baseX - baseY) * 0.007 - sc.t * 0.44)
  let ambientB := ops.cos ((baseX - seed * 105) * 0.011 - sc.t * 0.49) +
    ops.sin ((baseX + baseY) * 0.006 + sc.t * 0.39)
  let ambientLen := ops.hypot ambientA ambientB + 0.0001
  (targetX0 + ambientA / ambientLen * floatAmp * lockFloat +
      sc.ambientDriftX * env.foregroundStep * 0.24 * lockFloat,
    targetY0 + ambientB / ambientLen * floatAmp * lockFloat +
      sc.ambientDriftY * env.foregroundStep * 0.24 * lockFloat)

/-- The convergence fraction of particle `i` (recomputed by the loop body
for the stiffness and glyph decisions, lines 2071-2080). -/
def combinedConvergeOf (ops : MathFns) (sc : TickScalars)
    (fg : ForegroundData) (i : ℕ) : ℚ :=
  let seed := fg.seed i
  let delay := (ops.sin (seed * 4.13) * 0.5 + 0.5) * 0.34
  let delayedConverge := smoothstep delay 1 (sc.converge + sc.lockPhase * 0.08)
  clamp01 (delayedConverge * (0.58 + 0.42 * sc.retargetBlend))

/-- The outputs of one particle-loop iteration: new position, velocity and
the glyph written into the instanced glyph attribute. -/
structure ParticleOut where
  posX : ℚ
  posY : ℚ
  velX : ℚ
  velY : ℚ
  glyph : ℚ

/-- One iteration of the foreground particle loop (lines 2070-2259):
adjusted target (with the pointer branch gated on `pointerStrength`),
spring-damper integration and the abrupt glyph switch. -/
def particleTick (ops : MathFns) (env : Env) (modeIndex : ℕ)
    (sc : TickScalars) (fg : ForegroundData) (i : ℕ) : ParticleOut :=
  let seed := fg.seed i
  let combinedConverge := combinedConvergeOf ops sc fg i
  let baseTarget := particleBaseTarget ops env sc fg i
  let adj :=
    if 0.001 < sc.pointerStrength then
      pointerAdjust ops env modeIndex sc seed baseTarget.1 baseTarget.2
    else baseTarget
  let physicsStep := jsMin 1.8 (sc.delta * 60)
  let stiffness := (0.048 + 0.018 * combinedConverge) * physicsStep * env.motion.settle
  let damping := ops.pow
    (jsMax 0.78 (jsMin 0.9 (0.845 - (env.motion.drag - 1) * 0.04))) physicsStep
  let velX := (fg.velX i + (adj.1 - fg.posX i) * stiffness) * damping
  let velY := (fg.velY i + (adj.2 - fg.posY i) * stiffness) * damping
  let glyphProgress := smoothstep 0.18 0.92 (jsMin combinedConverge sc.retargetBlend)
  let switchGate := 0.5 + (ops.sin (seed * 23.1) * 0.5 + 0.5) * 0.2
  { posX := fg.posX i + velX * physicsStep
    posY := fg.posY i + velY * physicsStep
    velX := velX
    velY := velY
    glyph := if switchGate < glyphProgress then fg.targetGlyph i else fg.baseGlyph i }

/-- One particle-loop iteration with the pointer branch skipped: the
integration and glyph switch applied directly to the pointer-free target
(the else-path of the `pointerStrength` gate). -/
def particleTickNoPointer (ops : MathFns) (env : Env) (sc : TickScalars)
    (fg : ForegroundData) (i : ℕ) : ParticleOut :=
  let seed := fg.seed i
  let combinedConverge := combinedConvergeOf ops sc fg i
  let adj := particleBaseTarget ops env sc fg i
  let physicsStep := jsMin 1.8 (sc.delta * 60)
  let stiffness := (0.048 + 0.018 * combinedConverge) * physicsStep * env.motion.settle
  let damping := ops.pow
    (jsMax 0.78 (jsMin 0.9 (0.845 - (env.motion.drag - 1) * 0.04))) physicsStep
  let velX := (fg.velX i + (adj.1 - fg.posX i) * stiffness) * damping
  let velY := (fg.velY i + (adj.2 - fg.posY i) * stiffness) * damping
  let glyphProgress := smoothstep 0.18 0.92 (jsMin combinedConverge sc.retargetBlend)
  let switchGate := 0.5 + (ops.sin (seed * 23.1) * 0.5 + 0.5) * 0.2
  { posX := fg.posX i + velX * physicsStep
    posY := fg.posY i + velY * physicsStep
    velX := velX
    velY := velY
    glyph := if switchGate < glyphProgress then fg.targetGlyph i else fg.baseGlyph i }

/-- The mode-independent head of one `animate` call: clock/FPS bookkeeping,
the adaptive-quality controller with its early-return decision, the
timeline phases, the retarget scalars, the pointer smoothing and the
ambient drift (lines 1779-1893). -/
structure TickPre where
  early : Bool
  earlyState : FrameState
  simState : FrameState
  sc : TickScalars
  foregroundAlpha : ℚ

/-- The target quality computed by the adaptive controller: a baseline
reduced for a high device pixel ratio, minus stepped FPS penalties, plus a
high-FPS bonus, clamped to `[0.62, 1.05]`. -/
def targetQualityOf (dpr fpsEma : ℚ) : ℚ :=
  let targetQuality0 := 1 - jsMax 0 (dpr - 1) * 0.14
  let targetQuality1 := if fpsEma < 58 then targetQuality0 - 0.04 else targetQuality0
  let targetQuality2 := if fpsEma < 50 then targetQuality1 - 0.07 else targetQuality1
  let targetQuality3 := if fpsEma < 42 then targetQuality2 - 0.09 else targetQuality2
  let targetQuality4 := if fpsEma < 34 then targetQuality3 - 0.12 else targetQuality3
  let targetQuality5 := if 63 < fpsEma then targetQuality4 + 0.05 else targetQuality4
  jsMax 0.62 (jsMin 1.05 targetQuality5)

/-- The adaptive-quality controller body (lines 1786-1808): at most every
3.2 seconds, step `qualityScale` by `±0.08` toward the target when the gap
exceeds the `0.08` dead band; the `Bool` records the early return that
skips the rest of the frame. -/
def qualityStep (dpr qualityScale qualityEvalAt fpsEma t : ℚ) : ℚ × ℚ × Bool :=
  if qualityEvalAt < t then
    if 0.08 < jsAbs (targetQualityOf dpr fpsEma - qualityScale) then
      (jsMax 0.62 (jsMin 1.05
          (qualityScale + jsSign (targetQualityOf dpr fpsEma - qualityScale) * 0.08)),
        t + 3.2, true)
    else (qualityScale, t + 3.2, false)
  else (qualityScale, qualityEvalAt, false)

/-- Compute the `TickPre` data for one `animate` call. -/
def tickPre (ops : MathFns) (env : Env) (s : FrameState) : TickPre :=
  let delta := jsMin 0.05 env.rawDelta
  let t := s.t + env.rawDelta
  let motion := env.motion
  let fps := 1 / jsMax 0.0001 delta
  let fpsEma := s.fpsEma + (fps - s.fpsEma) * 0.08
  let qRes := qualityStep env.dpr s.qualityScale s.qualityEvalAt fpsEma t
  let earlyState := { s with
    t := t, fpsEma := fpsEma
    qualityScale := qRes.1, qualityEvalAt := qRes.2.1 }
  let timelineSpeed := 0.72 + motion.settle * 0.58
  let motionTime := t * timelineSpeed
  let baseConverge := smoothstep timelineMeshEnd timelineConvergeEnd motionTime
  let lockPhase := smoothstep timelineHoldEnd timelineSolidEnd motionTime
  let flow := 0.5 + 0.5 * ops.sin (motionTime * (0.22 * motion.flow) +
    ops.sin (motionTime * (0.07 * motion.flow + 0.03)))
  let rhythmWarp := ops.sin (motionTime * 0.9) * 0.04 * (1 - baseConverge)
  let converge := clamp01 (baseConverge + rhythmWarp)
  let solidifyMix := smoothstep (timelineSolidEnd - 1.3) (timelineSolidEnd + 0.4) motionTime
  let floatingMix := 1 - solidifyMix
  let foregroundAlpha := 0.56 + 0.34 * converge + 0.1 * solidifyMix
  let retargetMorph := jsMin 1 (s.retargetMorph + delta * (0.72 + 0.9 * motion.settle))
  let retargetExcite := s.retargetExcite + (0 - s.retargetExcite) * expSmoothing ops 2.8 delta
  let retargetBlend := smoothstep 0.02 0.96 retargetMorph
  let pointerFollow := expSmoothing ops (7.2 * motion.drag) delta
  let velocityFollow := expSmoothing ops (12.5 * motion.drag) delta
  let strengthFollow := expSmoothing ops (4.4 * motion.drag) delta
  let trailFade := ops.exp (-(6.4 * delta * (0.8 + motion.drag * 0.2)))
  let pointerX := s.pointerX + (s.pointerTargetX - s.pointerX) * pointerFollow
  let pointerY := s.pointerY + (s.pointerTargetY - s.pointerY) * pointerFollow
  let pointerVelocityX := s.pointerVelocityX +
    (s.pointerVelocityTargetX - s.pointerVelocityX) * velocityFollow
  let pointerVelocityY := s.pointerVelocityY +
    (s.pointerVelocityTargetY - s.pointerVelocityY) * velocityFollow
  let pointerVelocityTargetX := s.pointerVelocityTargetX * trailFade
  let pointerVelocityTargetY := s.pointerVelocityTargetY * trailFade
  let pointerStrength := s.pointerStrength +
    (s.pointerStrengthTarget - s.pointerStrength) * strengthFollow
  let pointerSpeed := jsMin 1.5 (ops.hypot pointerVelocityX pointerVelocityY * 15)
  let pointerEnergy := s.pointerEnergy +
    (pointerSpeed - s.pointerEnergy) * expSmoothing ops (3.6 * motion.drag) delta
  let driftFollow := expSmoothing ops (0.85 * motion.flow) delta
  let driftTargetX := ops.sin (t * 0.19 * motion.flow + ops.sin (t * 0.07 + 0.8)) * 0.8 +
    ops.cos (t * 0.11 * motion.flow + 1.5) * 0.34
  let driftTargetY := ops.cos (t * 0.17 * motion.flow + ops.sin (t * 0.05 + 0.3)) * 0.72 +
    ops.sin (t * 0.13 * motion.flow + 2.1) * 0.3
  let ambientDriftX := s.ambientDriftX + (driftTargetX - s.ambientDriftX) * driftFollow
  let ambientDriftY := s.ambientDriftY + (driftTargetY - s.ambientDriftY) * driftFollow
  let pointerWorldX := pointerX * env.viewportWidth * 0.5
  let pointerWorldY := -pointerY * env.viewportHeight * 0.5
  let pointerWorldVelX := pointerVelocityX * env.viewportWidth * 0.52
  let pointerWorldVelY := -pointerVelocityY * env.viewportHeight * 0.52
  let simState := { s with
    t := t, fpsEma := fpsEma
    qualityScale := qRes.1, qualityEvalAt := qRes.2.1
    retargetMorph := retargetMorph, retargetExcite := retargetExcite
    pointerX := pointerX, pointerY := pointerY
    pointerVelocityX := pointerVelocityX, pointerVelocityY := pointerVelocityY
    pointerVelocityTargetX := pointerVelocityTargetX
    pointerVelocityTargetY := pointerVelocityTargetY
    pointerStrength := pointerStrength, pointerEnergy := pointerEnergy
    ambientDriftX := ambientDriftX, ambientDriftY := ambientDriftY }
  { early := qRes.2.2
    earlyState := earlyState
    simState := simState
    sc := { t := t, delta := delta, converge := converge, lockPhase := lockPhase
            flow := flow, floatingMix := floatingMix, retargetBlend := retargetBlend
            retargetExcite := retargetExcite
            ambientDriftX := ambientDriftX, ambientDriftY := ambientDriftY
            pointerWorldX := pointerWorldX, pointerWorldY := pointerWorldY
            pointerWorldVelX := pointerWorldVelX, pointerWorldVelY := pointerWorldVelY
            pointerStrength := pointerStrength }
    foregroundAlpha := foregroundAlpha }

/-- One `animate` call (simulation-relevant part): either the quality
controller's early return, or the full tick whose particle loop runs when
the foreground alpha guard passes. -/
def animateTick (ops : MathFns) (env : Env) (modeIndex : ℕ)
    (s : FrameState) : FrameState :=
  let pre := tickPre ops env s
  if pre.early then pre.earlyState
  else if 0.001 < pre.foregroundAlpha then
    let sim := pre.simState
    { sim with
      fg := { sim.fg with
        posX := fun i =>
          if i < s.fg.count then (particleTick ops env modeIndex pre.sc s.fg i).posX
          else s.fg.posX i
        posY := fun i =>
          if i < s.fg.count then (particleTick ops env modeIndex pre.sc s.fg i).posY
          else s.fg.posY i
        velX := fun i =>
          if i < s.fg.count then (particleTick ops env modeIndex pre.sc s.fg i).velX
          else s.fg.velX i
        velY := fun i =>
          if i < s.fg.count then (particleTick ops env modeIndex pre.sc s.fg i).velY
          else s.fg.velY i }
      glyphs := fun i =>
        if i < s.fg.count then (particleTick ops env modeIndex pre.sc s.fg i).glyph
        else s.glyphs i }
  else pre.simState

/-- Iterated `animate` calls over a list of per-tick inputs. -/
def runTicks (ops : MathFns) (modeIndex : ℕ) (s : FrameState) :
    List Env → FrameState
  | [] => s
  | env :: rest => runTicks ops modeIndex (animateTick ops env modeIndex s) rest

/-! ## Concrete data for witnesses -/

/-- A trivial interpretation of the math intrinsics, for witnesses. -/
def zeroOps : MathFns :=
  { sin := fun _ => 0, cos := fun _ => 0, exp := fun _ => 0
    hypot := fun _ _ => 0, pow := fun _ _ => 0 }

/-- A one-particle foreground field with all-zero arrays. -/
def oneParticle : ForegroundData :=
  { count := 1
    homeX := fun _ => 0, homeY := fun _ => 0
    posX := fun _ => 0, posY := fun _ => 0
    velX := fun _ => 0, velY := fun _ => 0
    seed := fun _ => 0
    targetX := fun _ => 0, targetY := fun _ => 0
    baseGlyph := fun _ => 0, targetGlyph := fun _ => 0
    targetSlot := fun _ => 0 }

/-- A concrete simulation state for witnesses: the word `"GEIST"`, one
particle, one target point and otherwise freshly initialised scalars. -/
def sampleState : FrameState :=
  { currentWord := "GEIST"
    foregroundTargets := [⟨40, -12, 6⟩]
    targetCount := 1
    fg := oneParticle
    glyphs := fun _ => 0
    retargetMorph := 1
    retargetExcite := 0
    t := 0
    fpsEma := 60
    qualityScale := 1
    qualityEvalAt := 2
    pointerTargetX := 0
    pointerTargetY := 0
    pointerX := 0
    pointerY := 0
    pointerStrengthTarget := 0
    pointerStrength := 0
    pointerVelocityTargetX := 0
    pointerVelocityTargetY := 0
    pointerVelocityX := 0
    pointerVelocityY := 0
    pointerEnergy := 0
    ambientDriftX := 0
    ambientDriftY := 0 }

/-- Default motion settings (all four parameters `1`). -/
def sampleMotion : Motion := { flow := 1, drag := 1, camera := 1, settle := 1 }

/-- A concrete per-tick input for witnesses: a 60 FPS tick on a minimal
clamped viewport. -/
def sampleEnv : Env :=
  { rawDelta := 1/60, dpr := 1, viewportWidth := 320, viewportHeight := 240
    foregroundStep := 18, motion := sampleMotion
    modeStrengthMap := fun _ => some 1 }

/-! ## C1: retargeting reuses the particle buffers -/

/-- Claim C1: a word change applied through `retargetWord` (fixed sampler,
i.e. unchanged viewport) leaves the particle count and the `home`, `pos`,
`vel`, `seed` and `baseGlyph` arrays untouched; only the target fields and
the retarget scalars are written. -/
theorem retargetWord_preserves_particles (ops : MathFns)
    (sampler : String → List TargetPoint) (s : FrameState) (w : String) :
    (retargetWord ops sampler s w).fg.count = s.fg.count ∧
    (retargetWord ops sampler s w).fg.homeX = s.fg.homeX ∧
    (retargetWord ops sampler s w).fg.homeY = s.fg.homeY ∧
    (retargetWord ops sampler s w).fg.posX = s.fg.posX ∧
    (retargetWord ops sampler s w).fg.posY = s.fg.posY ∧
    (retargetWord ops sampler s w).fg.velX = s.fg.velX ∧
    (retargetWord ops sampler s w).fg.velY = s.fg.velY ∧
    (retargetWord ops sampler s w).fg.seed = s.fg.seed ∧
    (retargetWord ops sampler s w).fg.baseGlyph = s.fg.baseGlyph := by
  simp only [retargetWord, assignForegroundTargets]
  split_ifs <;> exact ⟨rfl, rfl, rfl, rfl, rfl, rfl, rfl, rfl, rfl⟩

/-! ## C2: empty target list falls back to home -/

/-- Claim C2: when the sampler produced an empty target list, target
assignment points every particle at its own home with its base glyph and
slot `0`. -/
theorem assignForegroundTargets_empty (ops : MathFns) (preserveSlots : Bool)
    (s : FrameState) (hempty : s.foregroundTargets = []) (i : ℕ)
    (hi : i < s.fg.count) :
    (assignForegroundTargets ops preserveSlots s).fg.targetX i = s.fg.homeX i ∧
    (assignForegroundTargets ops preserveSlots s).fg.targetY i = s.fg.homeY i ∧
    (assignForegroundTargets ops preserveSlots s).fg.targetGlyph i = s.fg.baseGlyph i ∧
    (assignForegroundTargets ops preserveSlots s).fg.targetSlot i = 0 := by
  unfold assignForegroundTargets
  simp [hempty, hi]

/-- Witness for C2 at a concrete state with no targets. -/
theorem assignForegroundTargets_empty_witness :
    ({ sampleState with foregroundTargets := [] } :
        FrameState).foregroundTargets = [] ∧
    0 < ({ sampleState with foregroundTargets := [] } : FrameState).fg.count ∧
    (assignForegroundTargets zeroOps true
        { sampleState with foregroundTargets := [] }).fg.targetSlot 0 = 0 :=
  ⟨rfl, by decide,
    (assignForegroundTargets_empty zeroOps true
      { sampleState with foregroundTargets := [] } rfl 0 (by decide)).2.2.2⟩

/-! ## C6: retargeting with the current word is a no-op -/

/-- Claim C6: calling `retargetWord` with a word normalizing to the
currently active word returns the state unchanged — no target rebuild, no
particle target writes, no retarget-scalar reset. -/
theorem retargetWord_same_word (ops : MathFns)
    (sampler : String → List TargetPoint) (s : FrameState) (w : String)
    (h : normalizeWord w = s.currentWord) :
    retargetWord ops sampler s w = s := by
  unfold retargetWord
  simp [h]

/-- Witness for C6: retargeting `"geist"` while `"GEIST"` is active. -/
theorem retargetWord_same_word_witness :
    normalizeWord "geist" = sampleState.currentWord ∧
    retargetWord zeroOps (fun _ => []) sampleState "geist" = sampleState :=
  ⟨by decide, retargetWord_same_word zeroOps (fun _ => []) sampleState "geist"
    (by decide)⟩

/-! ## C8: fresh-build slot assignment -/

/-- Claim C8: on a fresh build (`preserveSlots = false`) with a non-empty
target list of length `n`, particle `i` receives slot `(i * 17) % n` and
the position and glyph of the target point stored at that slot. -/
theorem assignForegroundTargets_fresh (ops : MathFns) (s : FrameState)
    (hne : s.foregroundTargets ≠ []) (i : ℕ) (hi : i < s.fg.count) :
    (assignForegroundTargets ops false s).fg.targetSlot i =
      i * 17 % s.foregroundTargets.length ∧
    (assignForegroundTargets ops false s).fg.targetX i =
      (s.foregroundTargets.getD (i * 17 % s.foregroundTargets.length) default).x ∧
    (assignForegroundTargets ops false s).fg.targetY i =
      (s.foregroundTargets.getD (i * 17 % s.foregroundTargets.length) default).y ∧
    (assignForegroundTargets ops false s).fg.targetGlyph i =
      (s.foregroundTargets.getD (i * 17 % s.foregroundTargets.length) default).glyph := by
  have hlen : s.foregroundTargets.length ≠ 0 := by
    simpa [List.length_eq_zero] using hne
  unfold assignForegroundTargets newSlot
  simp [hlen, hi]

/-- Witness for C8 on the concrete sample state. -/
theorem assignForegroundTargets_fresh_witness :
    sampleState.foregroundTargets ≠ [] ∧ 0 < sampleState.fg.count ∧
    (assignForegroundTargets zeroOps false sampleState).fg.targetSlot 0 =
      0 * 17 % sampleState.foregroundTargets.length :=
  ⟨by decide, by decide,
    (assignForegroundTargets_fresh zeroOps sampleState (by decide) 0
      (by decide)).1⟩

/-! ## C10: the stored slot always indexes into the target list -/

/-- The clamp `Math.max(0, Math.min(nextCount - 1, slot))` always lands in
`[0, n)` for a positive `n`. -/
theorem clampSlot_lt (n : ℕ) (r : ℤ) (h : 0 < n) :
    (max 0 (min ((n : ℤ) - 1) r)).toNat < n := by
  have h1 : (0 : ℤ) ≤ max 0 (min ((n : ℤ) - 1) r) := le_max_left _ _
  have h2 : max 0 (min ((n : ℤ) - 1) r) ≤ (n : ℤ) - 1 :=
    max_le (by omega) (min_le_left _ _)
  omega

/-- The slot computed for one particle is always below the new target
count. -/
theorem newSlot_lt (ops : MathFns) (preserveSlots : Bool)
    (nextCount oldTargetCount oldSlot i : ℕ) (hpos : 0 < nextCount) :
    newSlot ops preserveSlots nextCount oldTargetCount oldSlot i < nextCount := by
  unfold newSlot
  split
  · exact clampSlot_lt nextCount _ hpos
  · exact Nat.mod_lt _ hpos

/-- Claim C10: after any target assignment with a non-empty target list,
every particle's stored `targetSlot` is a valid index into the new target
list (so the `foregroundTargets[slot]` lookup is in bounds), and
`targetCount` records the new list length. -/
theorem assignForegroundTargets_slot_in_bounds (ops : MathFns)
    (preserveSlots : Bool) (s : FrameState) (hne : s.foregroundTargets ≠ [])
    (i : ℕ) (hi : i < s.fg.count) :
    (assignForegroundTargets ops preserveSlots s).targetCount =
      s.foregroundTargets.length ∧
    (assignForegroundTargets ops preserveSlots s).fg.targetSlot i <
      (assignForegroundTargets ops preserveSlots s).targetCount := by
  have hlen : s.foregroundTargets.length ≠ 0 := by
    simpa [List.length_eq_zero] using hne
  have hpos : 0 < s.foregroundTargets.length := Nat.pos_of_ne_zero hlen
  constructor
  · simp [assignForegroundTargets, hlen]
  · have h := newSlot_lt ops preserveSlots s.foregroundTargets.length
      s.targetCount (s.fg.targetSlot i) i hpos
    simpa [assignForegroundTargets, hlen, hi] using h

/-- Witness for C10 with slot preservation on the concrete sample state. -/
theorem assignForegroundTargets_slot_in_bounds_witness :
    sampleState.foregroundTargets ≠ [] ∧ 0 < sampleState.fg.count ∧
    (assignForegroundTargets zeroOps true sampleState).fg.targetSlot 0 <
      (assignForegroundTargets zeroOps true sampleState).targetCount :=
  ⟨by decide, by decide,
    (assignForegroundTargets_slot_in_bounds zeroOps true sampleState (by decide) 0
      (by decide)).2⟩

/-! ## C5: the quality scale never leaves `[0.62, 1.05]` -/

/-- The clamp applied wherever the quality controller writes a value. -/
theorem clampQ_mem (x : ℚ) :
    0.62 ≤ jsMax 0.62 (jsMin 1.05 x) ∧ jsMax 0.62 (jsMin 1.05 x) ≤ 1.05 := by
  rw [jsMax_eq, jsMin_eq]
  exact ⟨le_max_left _ _, max_le (by norm_num) (min_le_left _ _)⟩

/-- One quality evaluation keeps the scale inside `[0.62, 1.05]`. -/
theorem qualityStep_mem (dpr q e ema t : ℚ) (h : 0.62 ≤ q ∧ q ≤ 1.05) :
    0.62 ≤ (qualityStep dpr q e ema t).1 ∧ (qualityStep dpr q e ema t).1 ≤ 1.05 := by
  unfold qualityStep
  split_ifs <;> first
    | exact h
    | exact clampQ_mem _

/-- The quality scale after one full `animate` call is the output of the
quality controller. -/
theorem animateTick_qualityScale (ops : MathFns) (env : Env) (modeIndex : ℕ)
    (s : FrameState) :
    (animateTick ops env modeIndex s).qualityScale =
      (qualityStep env.dpr s.qualityScale s.qualityEvalAt
        (s.fpsEma + (1 / jsMax 0.0001 (jsMin 0.05 env.rawDelta) - s.fpsEma) * 0.08)
        (s.t + env.rawDelta)).1 := by
  simp only [animateTick]
  split_ifs <;> rfl

/-- The quality range is preserved by one tick. -/
theorem animateTick_quality_mem (ops : MathFns) (env : Env) (modeIndex : ℕ)
    (s : FrameState) (h : 0.62 ≤ s.qualityScale ∧ s.qualityScale ≤ 1.05) :
    0.62 ≤ (animateTick ops env modeIndex s).qualityScale ∧
      (animateTick ops env modeIndex s).qualityScale ≤ 1.05 := by
  rw [animateTick_qualityScale]
  exact qualityStep_mem _ _ _ _ _ h

/-- The quality range is preserved by any run of ticks. -/
theorem runTicks_quality_mem (ops : MathFns) (modeIndex : ℕ) :
    ∀ (envs : List Env) (s : FrameState),
      0.62 ≤ s.qualityScale → s.qualityScale ≤ 1.05 →
      0.62 ≤ (runTicks ops modeIndex s envs).qualityScale ∧
        (runTicks ops modeIndex s envs).qualityScale ≤ 1.05
  | [], _, h1, h2 => ⟨h1, h2⟩
  | env :: rest, s, h1, h2 => by
    have h := animateTick_quality_mem ops env modeIndex s ⟨h1, h2⟩
    exact runTicks_quality_mem ops modeIndex rest (animateTick ops env modeIndex s)
      h.1 h.2

/-- The initial quality scale lies in the invariant range for every device
pixel ratio. -/
theorem initQualityScale_mem (dpr : ℚ) :
    0.62 ≤ initQualityScale dpr ∧ initQualityScale dpr ≤ 1.05 := by
  unfold initQualityScale
  rw [jsMax_eq, jsMax_eq]
  constructor
  · exact le_trans (by norm_num) (le_max_left _ _)
  · refine max_le (by norm_num) ?_
    have h0 : (0 : ℚ) ≤ max 0 (dpr - 1) := le_max_left _ _
    have h1 : (0 : ℚ) ≤ max 0 (dpr - 1) * 0.12 := mul_nonneg h0 (by norm_num)
    linarith

/-- Claim C5: starting from the initial quality scale, `qualityScale`
remains inside `[0.62, 1.05]` in every state reachable under any sequence
of frame deltas. -/
theorem qualityScale_invariant (ops : MathFns) (modeIndex : ℕ) (dpr : ℚ)
    (envs : List Env) (s0 : FrameState)
    (h0 : s0.qualityScale = initQualityScale dpr) (k : ℕ) :
    0.62 ≤ (runTicks ops modeIndex s0 (envs.take k)).qualityScale ∧
      (runTicks ops modeIndex s0 (envs.take k)).qualityScale ≤ 1.05 := by
  have hinit := initQualityScale_mem dpr
  exact runTicks_quality_mem ops modeIndex (envs.take k) s0
    (by rw [h0]; exact hinit.1) (by rw [h0]; exact hinit.2)

/-- Witness for C5: one 60 FPS tick from the freshly initialised state. -/
theorem qualityScale_invariant_witness :
    sampleState.qualityScale = initQualityScale 1 ∧
    (0.62 ≤ (runTicks zeroOps 0 sampleState ([sampleEnv].take 1)).qualityScale ∧
      (runTicks zeroOps 0 sampleState ([sampleEnv].take 1)).qualityScale ≤ 1.05) :=
  ⟨by decide, qualityScale_invariant zeroOps 0 1 [sampleEnv] sampleState (by decide) 1⟩

/-! ## C4: shape of the normalized word -/

/-- A `dropWhile` survivor's head fails the predicate. -/
theorem head?_dropWhile (p : Char → Bool) :
    ∀ (l : List Char) (c : Char), (l.dropWhile p).head? = some c → p c = false := by
  intro l
  induction l with
  | nil => intro c h; simp [List.dropWhile] at h
  | cons x rest ih =>
    intro c h
    rw [List.dropWhile_cons] at h
    by_cases hx : p x
    · rw [if_pos hx] at h
      exact ih c h
    · rw [if_neg hx] at h
      simp only [List.head?_cons, Option.some.injEq] at h
      rw [← h]
      simpa using hx

/-- Unfolding lemma: a whitespace head inside a run is skipped. -/
theorem collapseWsAux_true_cons_space (x : Char) (rest : List Char)
    (h : isJsSpace x = true) :
    collapseWsAux true (x :: rest) = collapseWsAux true rest := by
  simp [collapseWsAux, h]

/-- Unfolding lemma: a whitespace head starting a run emits one space. -/
theorem collapseWsAux_false_cons_space (x : Char) (rest : List Char)
    (h : isJsSpace x = true) :
    collapseWsAux false (x :: rest) = ' ' :: collapseWsAux true rest := by
  simp [collapseWsAux, h]

/-- Unfolding lemma: a non-whitespace head is kept. -/
theorem collapseWsAux_cons_nonspace (b : Bool) (x : Char) (rest : List Char)
    (h : ¬isJsSpace x = true) :
    collapseWsAux b (x :: rest) = x :: collapseWsAux false rest := by
  cases b <;> simp [collapseWsAux, h]

/-- Collapsing introduces no character that was not a space or already
present. -/
theorem mem_collapseWsAux :
    ∀ (b : Bool) (l : List Char) (c : Char),
      c ∈ collapseWsAux b l → c = ' ' ∨ c ∈ l := by
  intro b l
  induction l generalizing b with
  | nil => intro c h; simp [collapseWsAux] at h
  | cons x rest ih =>
    intro c h
    by_cases h1 : isJsSpace x = true
    · cases b with
      | true =>
        rw [collapseWsAux_true_cons_space x rest h1] at h
        rcases ih true c h with h3 | h3
        · exact Or.inl h3
        · exact Or.inr (List.mem_cons_of_mem _ h3)
      | false =>
        rw [collapseWsAux_false_cons_space x rest h1] at h
        rcases List.mem_cons.mp h with h3 | h3
        · exact Or.inl h3
        · rcases ih true c h3 with h4 | h4
          · exact Or.inl h4
          · exact Or.inr (List.mem_cons_of_mem _ h4)
    · rw [collapseWsAux_cons_nonspace b x rest h1] at h
      rcases List.mem_cons.mp h with h3 | h3
      · exact Or.inr (by rw [h3]; exact List.mem_cons_self _ _)
      · rcases ih false c h3 with h4 | h4
        · exact Or.inl h4
        · exact Or.inr (List.mem_cons_of_mem _ h4)

/-- After a space has just been emitted, the rest of the collapsed list
never starts with whitespace. -/
theorem collapseWsAux_true_head :
    ∀ (l : List Char) (c : Char),
      (collapseWsAux true l).head? = some c → isJsSpace c = false := by
  intro l
  induction l with
  | nil => intro c h; simp [collapseWsAux] at h
  | cons x rest ih =>
    intro c h
    by_cases h1 : isJsSpace x = true
    · rw [collapseWsAux_true_cons_space x rest h1] at h
      exact ih c h
    · rw [collapseWsAux_cons_nonspace true x rest h1] at h
      simp only [List.head?_cons, Option.some.injEq] at h
      rw [← h]
      simpa using h1

/-- The collapsed list never contains two adjacent spaces. -/
theorem collapseWsAux_chain :
    ∀ (l : List Char) (b : Bool),
      List.Chain' (fun a c => ¬(a = ' ' ∧ c = ' ')) (collapseWsAux b l) := by
  intro l
  induction l with
  | nil => intro b; simp [collapseWsAux]
  | cons x rest ih =>
    intro b
    by_cases h1 : isJsSpace x = true
    · cases b with
      | true =>
        rw [collapseWsAux_true_cons_space x rest h1]
        exact ih true
      | false =>
        rw [collapseWsAux_false_cons_space x rest h1]
        refine List.chain'_cons'.mpr ⟨?_, ih true⟩
        intro y hy hcon
        have hns := collapseWsAux_true_head rest y (Option.mem_def.mp hy)
        rw [hcon.2] at hns
        simp [isJsSpace] at hns
    · rw [collapseWsAux_cons_nonspace b x rest h1]
      refine List.chain'_cons'.mpr ⟨?_, ih false⟩
      intro y hy hcon
      apply h1
      rw [hcon.1]
      decide

/-- The trimmed list is a prefix of the front-trimmed list. -/
theorem jsTrim_front (l : List Char) :
    jsTrim l <+: l.dropWhile (fun c => isJsSpace c) := by
  unfold jsTrim
  rw [← List.reverse_suffix]
  simpa [List.reverse_reverse] using
    (List.dropWhile_suffix (l := (l.dropWhile (fun c => isJsSpace c)).reverse)
      (fun c => isJsSpace c))

/-- Trimming yields a contiguous slice of the input. -/
theorem jsTrim_slice (l : List Char) : jsTrim l <:+: l :=
  List.IsInfix.trans (List.IsPrefix.isInfix (jsTrim_front l))
    (List.IsSuffix.isInfix (List.dropWhile_suffix _))

/-- The trimmed list never starts with whitespace. -/
theorem jsTrim_head (l : List Char) (c : Char)
    (h : (jsTrim l).head? = some c) : isJsSpace c = false := by
  obtain ⟨t, ht⟩ := jsTrim_front l
  have hne : jsTrim l ≠ [] := by
    intro hnil
    rw [hnil] at h
    simp at h
  have hd : (l.dropWhile (fun c => isJsSpace c)).head? = some c := by
    rw [← ht, List.head?_append_of_ne_nil _ hne, h]
  exact head?_dropWhile _ l c hd

/-- The trimmed list never ends with whitespace. -/
theorem jsTrim_getLast (l : List Char) (c : Char)
    (h : (jsTrim l).getLast? = some c) : isJsSpace c = false := by
  unfold jsTrim at h
  rw [List.getLast?_reverse] at h
  exact head?_dropWhile _ _ c h

/-- Claim C4 counterexample: the core's `normalizeWord` does not cap the
word length at 18 — a 19-character input survives unshortened (the
18-character cap lives only in the App layer's `sanitizeWord`). -/
theorem normalizeWord_no_length_cap :
    18 < (normalizeWord "AAAAAAAAAAAAAAAAAAA").length := by decide

/-- The four shape properties hold for any filtered-then-collapsed-then-
trimmed character list. -/
theorem wordShape_of_trimmed (l0 : List Char) :
    (∀ c ∈ jsTrim (collapseWs (l0.filter (fun c => isWordChar c))),
      isWordChar c = true) ∧
    List.Chain' (fun a b => ¬(a = ' ' ∧ b = ' '))
      (jsTrim (collapseWs (l0.filter (fun c => isWordChar c)))) ∧
    (∀ c, (jsTrim (collapseWs (l0.filter (fun c => isWordChar c)))).head? =
      some c → c ≠ ' ') ∧
    (∀ c, (jsTrim (collapseWs (l0.filter (fun c => isWordChar c)))).getLast? =
      some c → c ≠ ' ') := by
  refine ⟨?_, ?_, ?_, ?_⟩
  · intro c hc
    have hc1 : c ∈ collapseWs (l0.filter (fun c => isWordChar c)) :=
      (jsTrim_slice _).sublist.mem hc
    rcases mem_collapseWsAux false _ c hc1 with h3 | h3
    · rw [h3]; decide
    · exact (List.mem_filter.mp h3).2
  · exact List.Chain'.infix (collapseWsAux_chain _ false) (jsTrim_slice _)
  · intro c hc hcsp
    have hns := jsTrim_head _ c hc
    rw [hcsp] at hns
    simp [isJsSpace] at hns
  · intro c hc hcsp
    have hns := jsTrim_getLast _ c hc
    rw [hcsp] at hns
    simp [isJsSpace] at hns

/-- The four shape properties hold for the fallback word `"GEIST"`. -/
theorem wordShape_geist :
    (∀ c ∈ ("GEIST" : String).data, isWordChar c = true) ∧
    List.Chain' (fun a b => ¬(a = ' ' ∧ b = ' ')) ("GEIST" : String).data ∧
    (∀ c, ("GEIST" : String).data.head? = some c → c ≠ ' ') ∧
    (∀ c, ("GEIST" : String).data.getLast? = some c → c ≠ ' ') := by
  refine ⟨by decide, ?_, ?_, ?_⟩
  · rw [show ("GEIST" : String).data = ['G', 'E', 'I', 'S', 'T'] from rfl]
    exact List.chain'_cons.mpr ⟨by decide, List.chain'_cons.mpr ⟨by decide,
      List.chain'_cons.mpr ⟨by decide, List.chain'_cons.mpr ⟨by decide,
        List.chain'_singleton _⟩⟩⟩⟩
  · intro c hc
    have h' : 'G' = c := by simpa using hc
    rw [← h']
    decide
  · intro c hc
    have h' : 'T' = c := by simpa using hc
    rw [← h']
    decide

/-- Claim C4 (amended): for every input string, `normalizeWord` returns a
string containing only `[A-Z0-9 ]` characters (hence uppercase), with no
two adjacent spaces and neither leading nor trailing space; no length cap
is applied. -/
theorem normalizeWord_normal_form (value : String) :
    (∀ c ∈ (normalizeWord value).data, isWordChar c = true) ∧
    List.Chain' (fun a b => ¬(a = ' ' ∧ b = ' ')) (normalizeWord value).data ∧
    (∀ c, (normalizeWord value).data.head? = some c → c ≠ ' ') ∧
    (∀ c, (normalizeWord value).data.getLast? = some c → c ≠ ' ') := by
  simp only [normalizeWord]
  split_ifs <;> first
    | exact wordShape_of_trimmed _
    | exact wordShape_geist

/-- Witness for C4 (amended) on a concrete input. -/
theorem normalizeWord_normal_form_witness :
    'A' ∈ (normalizeWord "a a!").data ∧ isWordChar 'A' = true :=
  ⟨by decide, (normalizeWord_normal_form "a a!").1 'A' (by decide)⟩

/-! ## C9: mode-strength normalization -/

/-- The `[0.4, 1.8]` clamp of the mode-strength normalizer. -/
theorem clampMS_mem (q : ℚ) :
    0.4 ≤ jsMax 0.4 (jsMin 1.8 q) ∧ jsMax 0.4 (jsMin 1.8 q) ≤ 1.8 := by
  rw [jsMax_eq, jsMin_eq]
  exact ⟨le_max_left _ _, max_le (by norm_num) (min_le_left _ _)⟩

/-- Looking up any mode id in the normalized map yields the normalized
entry. -/
theorem normalizeModeStrengths_lookup (m : Option (String → JSValue))
    (modeId : String) (hmem : modeId ∈ INTERACTION_MODE_IDS) :
    (normalizeModeStrengths m).lookup modeId =
      some (match jsNumberFinite (modeStrengthsSource m modeId) with
        | some raw => jsMax 0.4 (jsMin 1.8 raw)
        | none => 1) := by
  fin_cases hmem <;> rfl

/-- Claim C9 counterexample: a `null` entry coerces (via JavaScript
`Number`) to the finite value `0`, so it is clamped to `0.4` rather than
defaulting to `1` as the claim requires for non-numeric entries. -/
theorem normalizeModeStrengths_null_entry :
    (normalizeModeStrengths (some (fun _ => JSValue.null))).lookup "fluid" =
      some 0.4 ∧ (0.4 : ℚ) ≠ 1 := by
  constructor <;> decide

/-- Claim C9 (amended): for every input (missing, `null` or non-object
maps included), the normalized map has exactly one entry per
interaction-mode id; an entry whose `Number` coercion is finite is clamped
to `[0.4, 1.8]` (so `null` becomes `0.4`), an entry whose coercion is not
finite (missing, `undefined`, `NaN`, infinities) becomes `1`, and every
resulting value lies in `[0.4, 1.8]`. -/
theorem normalizeModeStrengths_spec (m : Option (String → JSValue)) :
    (normalizeModeStrengths m).map Prod.fst = INTERACTION_MODE_IDS ∧
    ∀ modeId, modeId ∈ INTERACTION_MODE_IDS →
      ∃ v, (normalizeModeStrengths m).lookup modeId = some v ∧
        (∀ q, jsNumberFinite (modeStrengthsSource m modeId) = some q →
          v = jsMax 0.4 (jsMin 1.8 q)) ∧
        (jsNumberFinite (modeStrengthsSource m modeId) = none → v = 1) ∧
        0.4 ≤ v ∧ v ≤ 1.8 := by
  constructor
  · simp [normalizeModeStrengths, INTERACTION_MODE_IDS]
  · intro modeId hmem
    refine ⟨_, normalizeModeStrengths_lookup m modeId hmem, ?_, ?_, ?_⟩
    · intro q hq
      rw [hq]
    · intro hq
      rw [hq]
    · rcases hq : jsNumberFinite (modeStrengthsSource m modeId) with _ | q
      · exact ⟨by norm_num, by norm_num⟩
      · exact clampMS_mem q

/-- Witness for C9 (amended) at the empty (missing) map. -/
theorem normalizeModeStrengths_spec_witness :
    "magnet" ∈ INTERACTION_MODE_IDS ∧
    ∃ v, (normalizeModeStrengths none).lookup "magnet" = some v ∧
      (∀ q, jsNumberFinite (modeStrengthsSource none "magnet") = some q →
        v = jsMax 0.4 (jsMin 1.8 q)) ∧
      (jsNumberFinite (modeStrengthsSource none "magnet") = none → v = 1) ∧
      0.4 ≤ v ∧ v ≤ 1.8 :=
  ⟨by decide, (normalizeModeStrengths_spec none).2 "magnet" (by decide)⟩

/-! ## C7: no pointer influence outside the mode's radius -/

/-- Outside the pointer-influence radius the raw radial weight is zero. -/
theorem pointerAdjust_outside_radius (ops : MathFns) (env : Env)
    (modeIndex : ℕ) (sc : TickScalars) (seed tX tY : ℚ)
    (hrad : 0 < pointerWarpRadiusOf env modeIndex)
    (hdist : pointerWarpRadiusOf env modeIndex ≤
      ops.hypot (tX - sc.pointerWorldX) (tY - sc.pointerWorldY)) :
    pointerAdjust ops env modeIndex sc seed tX tY = (tX, tY) := by
  have hdistpos : pointerWarpRadiusOf env modeIndex <
      ops.hypot (tX - sc.pointerWorldX) (tY - sc.pointerWorldY) + 0.0001 := by
    linarith
  have hradial : clamp01 (1 -
      (ops.hypot (tX - sc.pointerWorldX) (tY - sc.pointerWorldY) + 0.0001) /
        pointerWarpRadiusOf env modeIndex) = 0 := by
    have hgt : 1 < (ops.hypot (tX - sc.pointerWorldX) (tY - sc.pointerWorldY) +
        0.0001) / pointerWarpRadiusOf env modeIndex :=
      (one_lt_div hrad).mpr hdistpos
    have hneg : 1 - (ops.hypot (tX - sc.pointerWorldX) (tY - sc.pointerWorldY) +
        0.0001) / pointerWarpRadiusOf env modeIndex ≤ 0 := by linarith
    unfold clamp01
    rw [jsMax_eq, jsMin_eq, min_eq_right (le_trans hneg (by norm_num)),
      max_eq_left hneg]
  simp only [pointerAdjust, hradial]
  simp

/-- Claim C7: a particle whose distance to the pointer is at least the
active mode's pointer-influence radius receives a pointer contribution of
exactly zero — its adjusted target equals the pointer-free target, and its
whole loop iteration coincides with one in which the pointer branch is
skipped. -/
theorem pointer_influence_outside_radius (ops : MathFns) (env : Env)
    (modeIndex : ℕ) (sc : TickScalars) (fg : ForegroundData) (i : ℕ)
    (hrad : 0 < pointerWarpRadiusOf env modeIndex)
    (hdist : pointerWarpRadiusOf env modeIndex ≤
      ops.hypot ((particleBaseTarget ops env sc fg i).1 - sc.pointerWorldX)
        ((particleBaseTarget ops env sc fg i).2 - sc.pointerWorldY)) :
    pointerAdjust ops env modeIndex sc (fg.seed i)
        (particleBaseTarget ops env sc fg i).1
        (particleBaseTarget ops env sc fg i).2 =
      particleBaseTarget ops env sc fg i ∧
    particleTick ops env modeIndex sc fg i =
      particleTickNoPointer ops env sc fg i := by
  have h1 : pointerAdjust ops env modeIndex sc (fg.seed i)
      (particleBaseTarget ops env sc fg i).1
      (particleBaseTarget ops env sc fg i).2 =
      particleBaseTarget ops env sc fg i := by
    rw [pointerAdjust_outside_radius ops env modeIndex sc (fg.seed i) _ _ hrad hdist]
  refine ⟨h1, ?_⟩
  simp only [particleTick, particleTickNoPointer]
  split_ifs <;> first
    | rw [h1]
    | rfl

/-- Concrete scalars for the C7 witness. -/
def sampleScalars : TickScalars :=
  { t := 0, delta := 1/60, converge := 0, lockPhase := 0, flow := 0
    floatingMix := 1, retargetBlend := 1, retargetExcite := 0
    ambientDriftX := 0, ambientDriftY := 0
    pointerWorldX := 0, pointerWorldY := 0
    pointerWorldVelX := 0, pointerWorldVelY := 0
    pointerStrength := 1 }

/-- Math intrinsics whose `hypot` puts everything far from the pointer. -/
def farOps : MathFns := { zeroOps with hypot := fun _ _ => 1000 }

/-- Witness for C7 on concrete data. -/
theorem pointer_influence_outside_radius_witness :
    0 < pointerWarpRadiusOf sampleEnv 0 ∧
    pointerWarpRadiusOf sampleEnv 0 ≤
      farOps.hypot
        ((particleBaseTarget farOps sampleEnv sampleScalars oneParticle 0).1 -
          sampleScalars.pointerWorldX)
        ((particleBaseTarget farOps sampleEnv sampleScalars oneParticle 0).2 -
          sampleScalars.pointerWorldY) ∧
    pointerAdjust farOps sampleEnv 0 sampleScalars (oneParticle.seed 0)
        (particleBaseTarget farOps sampleEnv sampleScalars oneParticle 0).1
        (particleBaseTarget farOps sampleEnv sampleScalars oneParticle 0).2 =
      particleBaseTarget farOps sampleEnv sampleScalars oneParticle 0 :=
  ⟨by decide, by decide,
    (pointer_influence_outside_radius farOps sampleEnv 0 sampleScalars
      oneParticle 0 (by decide) (by decide)).1⟩

/-! ## C3: the interaction mode is irrelevant while the pointer is idle -/

/-- With zero pointer strength the per-particle loop body does not depend
on the interaction mode. -/
theorem particleTick_mode_irrel {ops : MathFns} {env : Env} {sc : TickScalars}
    {fg : ForegroundData} (h : sc.pointerStrength = 0) (m i : ℕ) :
    particleTick ops env m sc fg i = particleTick ops env 0 sc fg i := by
  have hg : ¬((0.001 : ℚ) < sc.pointerStrength) := by rw [h]; norm_num
  simp only [particleTick, if_neg hg]

/-- The smoothed pointer strength stays zero through the head of the tick
when both the smoothed value and its target are zero. -/
theorem tickPre_sc_pointerStrength (ops : MathFns) (env : Env) (s : FrameState)
    (h1 : s.pointerStrength = 0) (h2 : s.pointerStrengthTarget = 0) :
    (tickPre ops env s).sc.pointerStrength = 0 := by
  simp [tickPre, h1, h2]

/-- One tick preserves an idle pointer (zero strength and target). -/
theorem animateTick_pointer_idle (ops : MathFns) (env : Env) (modeIndex : ℕ)
    (s : FrameState) (h1 : s.pointerStrength = 0)
    (h2 : s.pointerStrengthTarget = 0) :
    (animateTick ops env modeIndex s).pointerStrength = 0 ∧
    (animateTick ops env modeIndex s).pointerStrengthTarget = 0 := by
  constructor <;>
    (simp only [animateTick]
     split_ifs <;> simp [tickPre, h1, h2])

/-- One tick with an idle pointer is independent of the mode index. -/
theorem animateTick_mode_irrel (ops : MathFns) (env : Env) (s : FrameState)
    (m : ℕ) (h1 : s.pointerStrength = 0) (h2 : s.pointerStrengthTarget = 0) :
    animateTick ops env m s = animateTick ops env 0 s := by
  have hsc : (tickPre ops env s).sc.pointerStrength = 0 :=
    tickPre_sc_pointerStrength ops env s h1 h2
  simp only [animateTick, particleTick_mode_irrel hsc]

/-- Any run with an idle pointer keeps it idle. -/
theorem runTicks_pointer_idle (ops : MathFns) (modeIndex : ℕ) :
    ∀ (envs : List Env) (s : FrameState),
      s.pointerStrength = 0 → s.pointerStrengthTarget = 0 →
      (runTicks ops modeIndex s envs).pointerStrength = 0 ∧
        (runTicks ops modeIndex s envs).pointerStrengthTarget = 0
  | [], _, h1, h2 => ⟨h1, h2⟩
  | env :: rest, s, h1, h2 => by
    have hz := animateTick_pointer_idle ops env modeIndex s h1 h2
    exact runTicks_pointer_idle ops modeIndex rest
      (animateTick ops env modeIndex s) hz.1 hz.2

/-- Whole runs with an idle pointer coincide for any two mode indices. -/
theorem runTicks_mode_irrel (ops : MathFns) (m1 m2 : ℕ) :
    ∀ (envs : List Env) (s : FrameState),
      s.pointerStrength = 0 → s.pointerStrengthTarget = 0 →
      runTicks ops m1 s envs = runTicks ops m2 s envs
  | [], _, _, _ => rfl
  | env :: rest, s, h1, h2 => by
    have he1 : animateTick ops env m1 s = animateTick ops env 0 s :=
      animateTick_mode_irrel ops env s m1 h1 h2
    have he2 : animateTick ops env m2 s = animateTick ops env 0 s :=
      animateTick_mode_irrel ops env s m2 h1 h2
    show runTicks ops m1 (animateTick ops env m1 s) rest =
      runTicks ops m2 (animateTick ops env m2 s) rest
    rw [he1, he2]
    have hz := animateTick_pointer_idle ops env 0 s h1 h2
    exact runTicks_mode_irrel ops m1 m2 rest (animateTick ops env 0 s) hz.1 hz.2

/-- Claim C3: two runs identical except for the interaction-mode id, with
the pointer idle (strength and its target zero, hence pointer strength
zero at every tick — last conjunct), produce identical per-particle
positions, velocities and displayed glyphs after every tick. -/
theorem interactionMode_irrelevant_when_pointer_idle (ops : MathFns)
    (envs : List Env) (s0 : FrameState) (m1 m2 : ℕ)
    (h1 : s0.pointerStrength = 0) (h2 : s0.pointerStrengthTarget = 0) (k : ℕ) :
    (runTicks ops m1 s0 (envs.take k)).fg.posX =
      (runTicks ops m2 s0 (envs.take k)).fg.posX ∧
    (runTicks ops m1 s0 (envs.take k)).fg.posY =
      (runTicks ops m2 s0 (envs.take k)).fg.posY ∧
    (runTicks ops m1 s0 (envs.take k)).fg.velX =
      (runTicks ops m2 s0 (envs.take k)).fg.velX ∧
    (runTicks ops m1 s0 (envs.take k)).fg.velY =
      (runTicks ops m2 s0 (envs.take k)).fg.velY ∧
    (runTicks ops m1 s0 (envs.take k)).glyphs =
      (runTicks ops m2 s0 (envs.take k)).glyphs ∧
    (runTicks ops m1 s0 (envs.take k)).pointerStrength = 0 := by
  have h := runTicks_mode_irrel ops m1 m2 (envs.take k) s0 h1 h2
  rw [h]
  exact ⟨rfl, rfl, rfl, rfl, rfl,
    (runTicks_pointer_idle ops m2 (envs.take k) s0 h1 h2).1⟩

/-- Witness for C3: one tick, vortex (3) versus magnet (5), idle pointer. -/
theorem interactionMode_irrelevant_witness :
    sampleState.pointerStrength = 0 ∧ sampleState.pointerStrengthTarget = 0 ∧
    ((runTicks zeroOps 3 sampleState ([sampleEnv].take 1)).fg.posX =
        (runTicks zeroOps 5 sampleState ([sampleEnv].take 1)).fg.posX ∧
      (runTicks zeroOps 3 sampleState ([sampleEnv].take 1)).fg.posY =
        (runTicks zeroOps 5 sampleState ([sampleEnv].take 1)).fg.posY ∧
      (runTicks zeroOps 3 sampleState ([sampleEnv].take 1)).fg.velX =
        (runTicks zeroOps 5 sampleState ([sampleEnv].take 1)).fg.velX ∧
      (runTicks zeroOps 3 sampleState ([sampleEnv].take 1)).fg.velY =
        (runTicks zeroOps 5 sampleState ([sampleEnv].take 1)).fg.velY ∧
      (runTicks zeroOps 3 sampleState ([sampleEnv].take 1)).glyphs =
        (runTicks zeroOps 5 sampleState ([sampleEnv].take 1)).glyphs ∧
      (runTicks zeroOps 3 sampleState ([sampleEnv].take 1)).pointerStrength = 0) :=
  ⟨rfl, rfl, interactionMode_irrelevant_when_pointer_idle zeroOps [sampleEnv]
    sampleState 3 5 rfl rfl 1⟩

end TypoMesh
